import Mathlib

/-!
Verification of the Compilador repository (gramatica.py, lexer.py): a shallow
embedding of the lexer, the PLY grammar with its inline static-semantic
actions, and the recursive AST evaluator, together with theorems settling the
frozen claims about the specification.

Modelling conventions:
* Python floats are modelled by `Fl`: exact rationals plus `inf`, `ninf`,
  `nan`, with IEEE-style propagation.  All numeric literals appearing in the
  claims are integers, which float arithmetic represents exactly.
* In Python, `bool` is a subclass of `int`, so `isinstance(v, (int, float))`
  holds for every runtime value of this language; booleans coerce to 0/1 in
  arithmetic and comparisons.  `valToFl` captures that coercion.
* `None` (absent value) is modelled by `Option`.
* The unbounded `while` loop and Python's recursion limit are modelled with a
  fuel parameter; every recursive call of the evaluator decreases the fuel.
-/

namespace Compilador

/-- Model of a Python float: an exact rational, or one of the special values
positive infinity, negative infinity, NaN. -/
inductive Fl
  | rat : ℚ → Fl
  | inf : Fl
  | ninf : Fl
  | nan : Fl
  deriving DecidableEq

/-- IEEE negation of a float. -/
def Fl.neg : Fl → Fl
  | .rat q => .rat (-q)
  | .inf => .ninf
  | .ninf => .inf
  | .nan => .nan

/-- IEEE addition. -/
def Fl.add : Fl → Fl → Fl
  | .nan, _ => .nan
  | _, .nan => .nan
  | .rat a, .rat b => .rat (a + b)
  | .rat _, .inf => .inf
  | .inf, .rat _ => .inf
  | .rat _, .ninf => .ninf
  | .ninf, .rat _ => .ninf
  | .inf, .inf => .inf
  | .ninf, .ninf => .ninf
  | .inf, .ninf => .nan
  | .ninf, .inf => .nan

/-- IEEE subtraction, `a - b = a + (-b)`. -/
def Fl.sub (a b : Fl) : Fl := Fl.add a (Fl.neg b)

/-- IEEE multiplication. -/
def Fl.mul : Fl → Fl → Fl
  | .nan, _ => .nan
  | _, .nan => .nan
  | .rat a, .rat b => .rat (a * b)
  | .rat a, .inf => if 0 < a then .inf else if a < 0 then .ninf else .nan
  | .inf, .rat a => if 0 < a then .inf else if a < 0 then .ninf else .nan
  | .rat a, .ninf => if 0 < a then .ninf else if a < 0 then .inf else .nan
  | .ninf, .rat a => if 0 < a then .ninf else if a < 0 then .inf else .nan
  | .inf, .inf => .inf
  | .inf, .ninf => .ninf
  | .ninf, .inf => .ninf
  | .ninf, .ninf => .inf

/-- IEEE division.  The evaluator only calls this after its `right == 0`
guard, so a divisor equal to `rat 0` is unreachable there; that case is given
the value `nan` for totality. -/
def Fl.div : Fl → Fl → Fl
  | .nan, _ => .nan
  | _, .nan => .nan
  | .rat a, .rat b => if b = 0 then .nan else .rat (a / b)
  | .rat _, .inf => .rat 0
  | .rat _, .ninf => .rat 0
  | .inf, .rat b => if 0 < b then .inf else if b < 0 then .ninf else .nan
  | .ninf, .rat b => if 0 < b then .ninf else if b < 0 then .inf else .nan
  | .inf, .inf => .nan
  | .inf, .ninf => .nan
  | .ninf, .inf => .nan
  | .ninf, .ninf => .nan

/-- IEEE strict less-than; any comparison involving NaN is false. -/
def Fl.ltb : Fl → Fl → Bool
  | .nan, _ => false
  | _, .nan => false
  | .rat a, .rat b => a < b
  | .rat _, .inf => true
  | .inf, .rat _ => false
  | .ninf, .rat _ => true
  | .rat _, .ninf => false
  | .ninf, .inf => true
  | .inf, .ninf => false
  | .inf, .inf => false
  | .ninf, .ninf => false

/-- IEEE less-or-equal; any comparison involving NaN is false. -/
def Fl.leb : Fl → Fl → Bool
  | .nan, _ => false
  | _, .nan => false
  | .rat a, .rat b => a ≤ b
  | .rat _, .inf => true
  | .inf, .rat _ => false
  | .ninf, .rat _ => true
  | .rat _, .ninf => false
  | .ninf, .inf => true
  | .inf, .ninf => false
  | .inf, .inf => true
  | .ninf, .ninf => true

/-- IEEE equality; NaN is not equal to anything, including itself. -/
def Fl.eqb : Fl → Fl → Bool
  | .nan, _ => false
  | _, .nan => false
  | .rat a, .rat b => a = b
  | .inf, .inf => true
  | .ninf, .ninf => true
  | _, _ => false

/-- A runtime value of the language: a Python float or a Python bool. -/
inductive Value
  | fl : Fl → Value
  | vbool : Bool → Value
  deriving DecidableEq

/-- Python's numeric coercion of a runtime value: bools are 0/1 (bool is a
subclass of int in Python). -/
def valToFl : Value → Fl
  | .fl f => f
  | .vbool b => .rat (if b then 1 else 0)

/-- The check `isinstance(v, (int, float))` from the source.  Every runtime
value of this language satisfies it: floats directly, and bools because bool
is a subclass of int in Python.  The error branches guarded by this check in
`evaluate_ast` are therefore dead code, which we model faithfully. -/
def isNumericPy : Value → Bool
  | .fl _ => true
  | .vbool _ => true

/-- The check `isinstance(v, bool)` from the source. -/
def isBoolV : Value → Bool
  | .vbool _ => true
  | .fl _ => false

/-- Boolean content of a value (only consulted after `isBoolV` succeeds). -/
def boolOf : Value → Bool
  | .vbool b => b
  | .fl _ => false

/-- Python's `v == 0` test used by the division-by-zero guard: bools coerce,
and NaN compares unequal to everything. -/
def pyEqZero (v : Value) : Bool := Fl.eqb (valToFl v) (Fl.rat 0)

/-- The static types used by `get_node_type` / `check_type_compatibility`:
'float', 'boolean', 'unknown', 'error' and the placeholder 'unknown_error'
inserted for an undeclared identifier. -/
inductive Ty
  | float
  | boolean
  | unknown
  | error
  | unknownError
  deriving DecidableEq

/-- String rendering of a type, as interpolated into the error messages. -/
def tyStr : Ty → String
  | .float => "float"
  | .boolean => "boolean"
  | .unknown => "unknown"
  | .error => "error"
  | .unknownError => "unknown_error"

/-- An error record: {type, message, line, column}, with the extra `token`
key that `p_error` adds to syntactic records. -/
structure ErrRec where
  kind : String
  message : String
  line : Option Nat
  column : Option Nat
  token : Option String
  deriving DecidableEq

/-- Error-kind tag "Léxico". -/
def kLex : String := "Léxico"

/-- Error-kind tag "Sintáctico". -/
def kSyn : String := "Sintáctico"

/-- Error-kind tag "Semántico". -/
def kSem : String := "Semántico"

/-- A single quote character, written with an escape so the message builders
below stay free of literal apostrophes. -/
def sq : String := "\x27"

/-- The AST of the language, mirroring the tagged tuples built by the grammar
actions in gramatica.py.  `err` is the ('error', ...) node produced when a
static type check fails; its payload is never read by the evaluator. -/
inductive ArithOp
  | add
  | sub
  | mul
  | div
  deriving DecidableEq

/-- Comparison operators. -/
inductive CmpOp
  | lt
  | le
  | gt
  | ge
  | eq
  | ne
  deriving DecidableEq

/-- Logical binary operators. -/
inductive LogOp
  | andOp
  | orOp
  deriving DecidableEq

/-- AST nodes.  Blocks are lists of statements, as in the source. -/
inductive Ast
  | number (q : ℚ)
  | id (name : String)
  | arith (op : ArithOp) (l r : Ast)
  | cmp (op : CmpOp) (l r : Ast)
  | logic (op : LogOp) (l r : Ast)
  | nnot (e : Ast)
  | uminus (e : Ast)
  | assign (name : String) (e : Ast)
  | ifS (cond : Ast) (thenB : List Ast)
  | ifElse (cond : Ast) (thenB elseB : List Ast)
  | whileS (cond : Ast) (body : List Ast)
  | err

/-- Source rendering of an arithmetic operator, for error messages. -/
def arithOpStr : ArithOp → String
  | .add => "+"
  | .sub => "-"
  | .mul => "*"
  | .div => "/"

/-- Source rendering of a comparison operator. -/
def cmpOpStr : CmpOp → String
  | .lt => "<"
  | .le => "<="
  | .gt => ">"
  | .ge => ">="
  | .eq => "=="
  | .ne => "!="

/-- Source rendering of a logical operator. -/
def logOpStr : LogOp → String
  | .andOp => "AND"
  | .orOp => "OR"

/-- A symbol-table entry: {value_ast, evaluated_value, type}. -/
structure Entry where
  valueAst : Option Ast
  evaluatedValue : Option Value
  ty : Ty

/-- The symbol table is an insertion-ordered map (Python dict). -/
abbrev SymTab := List (String × Entry)

/-- Dict lookup. -/
def lookupTab (tab : SymTab) (name : String) : Option Entry :=
  match tab with
  | [] => none
  | (n, e) :: rest => if n = name then some e else lookupTab rest name

/-- Dict assignment `tab[name] = e`: an existing key keeps its position, a
new key is appended (Python dict insertion-order semantics). -/
def updateTab (tab : SymTab) (name : String) (e : Entry) : SymTab :=
  if tab.any (fun p => p.1 = name) then
    tab.map (fun p => if p.1 = name then (name, e) else p)
  else
    tab ++ [(name, e)]

/-- The assignment `tab[name]['evaluated_value'] = ov` performed by the
evaluator.  The parser has inserted an entry for every name appearing in the
program, so the name is always present there; on an absent name Python would
raise KeyError, modelled here as a no-op since it is unreachable. -/
def setEvalField (tab : SymTab) (name : String) (ov : Option Value) : SymTab :=
  tab.map (fun p => if p.1 = name then (p.1, ⟨p.2.valueAst, ov, p.2.ty⟩) else p)

/-- The shared mutable state of gramatica.py used by both the static actions
and the evaluator: the symbol table and the semantic error list. -/
structure GState where
  symtab : SymTab
  semErrors : List ErrRec

/-- Record a semantic error (`add_semantic_error`): appended at the end. -/
def addSem (g : GState) (msg : String) (line col : Option Nat) : GState :=
  ⟨g.symtab, g.semErrors ++ [⟨kSem, msg, line, col, none⟩]⟩

/-- Record a runtime semantic error (line and column are `None`). -/
def addSemRT (g : GState) (msg : String) : GState := addSem g msg none none

/-- Message of the parse-time undeclared-variable error. -/
def msgUndeclared (name : String) : String :=
  "Variable " ++ sq ++ name ++ sq ++ " no declarada."

/-- Message of the arithmetic type-incompatibility error. -/
def msgArithType (op : String) (t1 t2 : Ty) : String :=
  "Error de tipo: Operación " ++ sq ++ op ++ sq ++ " no definida para " ++
    sq ++ tyStr t1 ++ sq ++ " y " ++ sq ++ tyStr t2 ++ sq ++ "."

/-- Message of the comparison type-incompatibility error. -/
def msgCmpType (op : String) (t1 t2 : Ty) : String :=
  "Error de tipo: Comparación " ++ sq ++ op ++ sq ++ " no definida para " ++
    sq ++ tyStr t1 ++ sq ++ " y " ++ sq ++ tyStr t2 ++ sq ++ "."

/-- Message of the logical type-incompatibility error. -/
def msgLogicType (op : String) (t1 t2 : Ty) : String :=
  "Error de tipo: Operación lógica " ++ sq ++ op ++ sq ++ " no definida para " ++
    sq ++ tyStr t1 ++ sq ++ " y " ++ sq ++ tyStr t2 ++ sq ++ "."

/-- Message of the static NOT-operand error. -/
def msgNotType (t : Ty) : String :=
  "Error de tipo: Operador " ++ sq ++ "NOT" ++ sq ++ " solo aplica a booleanos, se encontró " ++
    sq ++ tyStr t ++ sq ++ "."

/-- Message of the static IF-condition error. -/
def msgIfCondType (t : Ty) : String :=
  "Error de tipo: La condición IF debe ser booleana, se encontró " ++ sq ++ tyStr t ++ sq ++ "."

/-- Message of the static WHILE-condition error. -/
def msgWhileCondType (t : Ty) : String :=
  "Error de tipo: La condición WHILE debe ser booleana, se encontró " ++ sq ++ tyStr t ++ sq ++ "."

/-- Message of the runtime undefined-variable error. -/
def msgUndefinedRT (name : String) : String :=
  "Variable " ++ sq ++ name ++ sq ++ " no definida durante la ejecución."

/-- Message of the (unreachable) runtime non-numeric-operand error. -/
def msgNonNumeric (op : String) : String :=
  "Error de ejecución: Operación " ++ sq ++ op ++ sq ++ " con tipos no numéricos."

/-- Message of the runtime division-by-zero error. -/
def msgDivZero : String := "Error de ejecución: División por cero."

/-- Message of the runtime non-boolean left AND operand error. -/
def msgAndLeft : String :=
  "Error de ejecución: Operación " ++ sq ++ "AND" ++ sq ++ " con operando izquierdo no booleano."

/-- Message of the runtime non-boolean right AND operand error. -/
def msgAndRight : String :=
  "Error de ejecución: Operación " ++ sq ++ "AND" ++ sq ++ " con operando derecho no booleano."

/-- Message of the runtime non-boolean left OR operand error. -/
def msgOrLeft : String :=
  "Error de ejecución: Operación " ++ sq ++ "OR" ++ sq ++ " con operando izquierdo no booleano."

/-- Message of the runtime non-boolean right OR operand error. -/
def msgOrRight : String :=
  "Error de ejecución: Operación " ++ sq ++ "OR" ++ sq ++ " con operando derecho no booleano."

/-- Message of the runtime non-boolean NOT operand error. -/
def msgNotRT : String :=
  "Error de ejecución: Operación " ++ sq ++ "NOT" ++ sq ++ " con tipo no booleano."

/-- Message of the (unreachable) runtime non-numeric unary-minus error. -/
def msgUminusRT : String := "Error de ejecución: Negación unaria con tipo no numérico."

/-- Message of the runtime non-boolean IF condition error. -/
def msgIfCondRT : String := "Error de ejecución: La condición IF debe ser booleana."

/-- Message of the runtime non-boolean IF/ELSE condition error. -/
def msgIfElseCondRT : String := "Error de ejecución: La condición IF/ELSE debe ser booleana."

/-- Message of the runtime non-boolean WHILE condition error. -/
def msgWhileCondRT : String := "Error de ejecución: La condición WHILE debe ser booleana."

/-- Message of the lexical illegal-character error. -/
def msgIllegalChar (c : Char) : String :=
  "Caracter ilegal " ++ sq ++ String.singleton c ++ sq

/-- Message of a syntactic error near a token. -/
def msgSynNear (v : String) : String :=
  "Error sintáctico cerca de " ++ sq ++ v ++ sq

/-- Message of the end-of-file syntactic error. -/
def msgSynEof : String := "Error sintáctico: Fin de archivo inesperado o incompleto."

/-- The end-of-file syntactic error record produced by `p_error(None)`. -/
def eofErr : ErrRec := ⟨kSyn, msgSynEof, none, none, some "EOF"⟩

/-- Static type inference `get_node_type`: infers the type of an already
built AST node from the current symbol table.  An ('error', ...) node and any
other unrecognised shape fall through to 'unknown'. -/
def getNodeType (tab : SymTab) : Ast → Ty
  | .number _ => .float
  | .id name =>
    match lookupTab tab name with
    | some e => e.ty
    | none => .unknown
  | .arith _ l r =>
    if getNodeType tab l = .float ∧ getNodeType tab r = .float then .float else .error
  | .cmp _ _ _ => .boolean
  | .logic _ _ _ => .boolean
  | .nnot _ => .boolean
  | .uminus e => getNodeType tab e
  | _ => .unknown

/-- The class of a binary operator, as dispatched by `check_type_compatibility`. -/
inductive BinClass
  | arith (op : ArithOp)
  | cmp (op : CmpOp)
  | logic (op : LogOp)

/-- Source text of a classified operator. -/
def binClassStr : BinClass → String
  | .arith op => arithOpStr op
  | .cmp op => cmpOpStr op
  | .logic op => logOpStr op

/-- `check_type_compatibility`: returns the result type and, possibly, the
semantic error to record.  Note that only the literal type 'unknown' enables
the cascading-error suppression; the placeholder 'unknown_error' of an
undeclared variable does not. -/
def checkTypeCompat (cls : BinClass) (t1 t2 : Ty) : Ty × Option String :=
  if t1 = .unknown ∨ t2 = .unknown then (.unknown, none)
  else
    match cls with
    | .arith op =>
      if t1 = .float ∧ t2 = .float then (.float, none)
      else (.error, some (msgArithType (arithOpStr op) t1 t2))
    | .cmp op =>
      if (t1 = .float ∧ t2 = .float) ∨
         (t1 = .boolean ∧ t2 = .boolean ∧ (op = .eq ∨ op = .ne)) then (.boolean, none)
      else (.error, some (msgCmpType (cmpOpStr op) t1 t2))
    | .logic op =>
      if t1 = .boolean ∧ t2 = .boolean then (.boolean, none)
      else (.error, some (msgLogicType (logOpStr op) t1 t2))

/-- Python's arithmetic on runtime values after coercion; division is only
reached with a divisor that is not `== 0`. -/
def applyArith (op : ArithOp) (a b : Value) : Fl :=
  match op with
  | .add => Fl.add (valToFl a) (valToFl b)
  | .sub => Fl.sub (valToFl a) (valToFl b)
  | .mul => Fl.mul (valToFl a) (valToFl b)
  | .div => Fl.div (valToFl a) (valToFl b)

/-- Python's comparison operators on runtime values (bools coerce to 0/1,
NaN compares false except under `!=`). -/
def applyCmp (op : CmpOp) (a b : Value) : Bool :=
  match op with
  | .lt => Fl.ltb (valToFl a) (valToFl b)
  | .le => Fl.leb (valToFl a) (valToFl b)
  | .gt => Fl.ltb (valToFl b) (valToFl a)
  | .ge => Fl.leb (valToFl b) (valToFl a)
  | .eq => Fl.eqb (valToFl a) (valToFl b)
  | .ne => !(Fl.eqb (valToFl a) (valToFl b))

/-- Is this statement an `assign` node?  Used by the block loops: a `None`
result from an assignment does not abort the block. -/
def isAssignAst : Ast → Bool
  | .assign _ _ => true
  | _ => false

/-- Is this statement an ('error', ...) node?  Such statements are skipped
by every statement loop. -/
def isErrAst : Ast → Bool
  | .err => true
  | _ => false

/-- Outcome of executing a block's statement list: either one statement
aborted the block (a non-assignment evaluated to `None`), or the loop ran to
completion carrying the last result. -/
inductive BlockOut
  | aborted
  | done (last : Option Value)

/- The recursive interpreter `evaluate_ast` of gramatica.py, together with
the statement loop shared (textually repeated in the source) by the `if`,
`if_else` and `while` branches, and the `while` iteration.  The fuel
decreases on every recursive call; exhausted fuel returns `None`, which
models Python's recursion limit and a non-terminating loop. -/
mutual

/-- The tuple branches of `evaluate_ast`. -/
def evalAst : Nat → Ast → GState → Option Value × GState
  | 0, _, st => (none, st)
  | fuel + 1, ast, st =>
    match ast with
    | .number q => (some (.fl (.rat q)), st)
    | .id name =>
      match lookupTab st.symtab name with
      | some e =>
        match e.evaluatedValue with
        | some v => (some v, st)
        | none =>
          match e.valueAst with
          | some va =>
            match evalAst fuel va st with
            | (v, st1) => (v, ⟨setEvalField st1.symtab name v, st1.semErrors⟩)
          | none => (none, st)
      | none => (none, addSemRT st (msgUndefinedRT name))
    | .arith op l r =>
      match evalAst fuel l st with
      | (lv, st1) =>
        match evalAst fuel r st1 with
        | (rv, st2) =>
          match lv, rv with
          | some a, some b =>
            if !(isNumericPy a) || !(isNumericPy b) then
              (none, addSemRT st2 (msgNonNumeric (arithOpStr op)))
            else
              match op with
              | .div =>
                if pyEqZero b then (some (.fl .inf), addSemRT st2 msgDivZero)
                else (some (.fl (applyArith .div a b)), st2)
              | _ => (some (.fl (applyArith op a b)), st2)
          | _, _ => (none, st2)
    | .cmp op l r =>
      match evalAst fuel l st with
      | (lv, st1) =>
        match evalAst fuel r st1 with
        | (rv, st2) =>
          match lv, rv with
          | some a, some b => (some (.vbool (applyCmp op a b)), st2)
          | _, _ => (none, st2)
    | .logic .andOp l r =>
      match evalAst fuel l st with
      | (none, st1) => (none, st1)
      | (some lv, st1) =>
        if !(isBoolV lv) then (some (.vbool false), addSemRT st1 msgAndLeft)
        else if lv = .vbool false then (some (.vbool false), st1)
        else
          match evalAst fuel r st1 with
          | (none, st2) => (none, st2)
          | (some rv, st2) =>
            if !(isBoolV rv) then (some (.vbool false), addSemRT st2 msgAndRight)
            else (some (.vbool (boolOf lv && boolOf rv)), st2)
    | .logic .orOp l r =>
      match evalAst fuel l st with
      | (none, st1) => (none, st1)
      | (some lv, st1) =>
        if !(isBoolV lv) then (some (.vbool false), addSemRT st1 msgOrLeft)
        else if lv = .vbool true then (some (.vbool true), st1)
        else
          match evalAst fuel r st1 with
          | (none, st2) => (none, st2)
          | (some rv, st2) =>
            if !(isBoolV rv) then (some (.vbool false), addSemRT st2 msgOrRight)
            else (some (.vbool (boolOf lv || boolOf rv)), st2)
    | .nnot e =>
      match evalAst fuel e st with
      | (none, st1) => (none, st1)
      | (some v, st1) =>
        if !(isBoolV v) then (some (.vbool false), addSemRT st1 msgNotRT)
        else (some (.vbool (!(boolOf v))), st1)
    | .uminus e =>
      match evalAst fuel e st with
      | (none, st1) => (none, st1)
      | (some v, st1) =>
        if !(isNumericPy v) then (none, addSemRT st1 msgUminusRT)
        else (some (.fl (Fl.neg (valToFl v))), st1)
    | .assign name e =>
      match evalAst fuel e st with
      | (none, st1) => (none, st1)
      | (some v, st1) => (some v, ⟨setEvalField st1.symtab name (some v), st1.semErrors⟩)
    | .ifS c thenB =>
      match evalAst fuel c st with
      | (none, st1) => (none, st1)
      | (some v, st1) =>
        if !(isBoolV v) then (none, addSemRT st1 msgIfCondRT)
        else if boolOf v then
          match blockExec fuel thenB none st1 with
          | (.aborted, st2) => (none, st2)
          | (.done last, st2) => (last, st2)
        else (none, st1)
    | .ifElse c thenB elseB =>
      match evalAst fuel c st with
      | (none, st1) => (none, st1)
      | (some v, st1) =>
        if !(isBoolV v) then (none, addSemRT st1 msgIfElseCondRT)
        else
          match blockExec fuel (if boolOf v then thenB else elseB) none st1 with
          | (.aborted, st2) => (none, st2)
          | (.done last, st2) => (last, st2)
    | .whileS c body => whileEval fuel c body none st
    | .err => (none, st)

/-- The statement loop of a block body (`if`, `if_else`, `while` branches):
('error', ...) statements are skipped; a non-assignment statement that
evaluates to `None` aborts the block. -/
def blockExec : Nat → List Ast → Option Value → GState → BlockOut × GState
  | 0, _, last, st => (.done last, st)
  | _ + 1, [], last, st => (.done last, st)
  | fuel + 1, s :: rest, last, st =>
    if isErrAst s then blockExec fuel rest last st
    else
      match evalAst fuel s st with
      | (none, st1) =>
        if isAssignAst s then blockExec fuel rest none st1 else (.aborted, st1)
      | (some v, st1) => blockExec fuel rest (some v) st1

/-- The `while True:` loop of the 'while' branch: re-evaluate the condition
before each pass; a `None` or non-boolean condition returns `None`; an
aborted body pass returns `None`; a false condition breaks and returns the
last result from the final executed pass. -/
def whileEval : Nat → Ast → List Ast → Option Value → GState → Option Value × GState
  | 0, _, _, _, st => (none, st)
  | fuel + 1, c, body, last, st =>
    match evalAst fuel c st with
    | (none, st1) => (none, st1)
    | (some v, st1) =>
      if !(isBoolV v) then (none, addSemRT st1 msgWhileCondRT)
      else if boolOf v then
        match blockExec fuel body last st1 with
        | (.aborted, st2) => (none, st2)
        | (.done last2, st2) => whileEval fuel c body last2 st2
      else (last, st1)

end

/-- The `isinstance(node, list)` branch of `evaluate_ast`: the top-level
program statement list.  Every statement is executed in order; ('error', ...)
statements are skipped; a `None` result never aborts at this level. -/
def evalProgram (fuel : Nat) : List Ast → Option Value → GState → Option Value × GState
  | [], last, st => (last, st)
  | s :: rest, last, st =>
    if isErrAst s then evalProgram fuel rest last st
    else
      match evalAst fuel s st with
      | (r, st1) => evalProgram fuel rest r st1

/-- Token kinds of lexer.py. -/
inductive Tok
  | tId (s : String)
  | tNum (q : ℚ)
  | tPlus
  | tMinus
  | tTimes
  | tDivide
  | tLParen
  | tRParen
  | tEqual
  | tLt
  | tLe
  | tGt
  | tGe
  | tEq
  | tNe
  | tAnd
  | tOr
  | tNot
  | tIf
  | tElse
  | tWhile
  | tLBrace
  | tRBrace
  deriving DecidableEq

/-- A produced token: kind, line number, absolute position (`lexpos`), the
column that `p_error`/`t_error` would compute for this position (offset from
the most recent newline, or the raw position on the first line), and the
string `t.value` would render to in a syntactic error message. -/
structure Token where
  tok : Tok
  line : Nat
  pos : Nat
  errCol : Nat
  text : String
  deriving DecidableEq

/-- Identifier start characters, `[a-zA-Z_]`. -/
def isIdentStart (c : Char) : Bool := c.isAlpha || c = '_'

/-- Identifier continuation characters, `[a-zA-Z0-9_]`. -/
def isIdentChar (c : Char) : Bool := c.isAlpha || c.isDigit || c = '_'

/-- Keyword lookup: `reserved.get(value.upper(), 'ID')`.  The upper-casing
is done character by character (the identifiers are ASCII). -/
def keywordOrId (s : String) : Tok :=
  let u := String.mk (s.data.map Char.toUpper)
  if u = "IF" then .tIf
  else if u = "ELSE" then .tElse
  else if u = "WHILE" then .tWhile
  else if u = "AND" then .tAnd
  else if u = "OR" then .tOr
  else if u = "NOT" then .tNot
  else .tId s

/-- Numeric value of a digit string. -/
def digitsVal (ds : List Char) : Nat :=
  ds.foldl (fun a c => 10 * a + (c.toNat - 48)) 0

/-- Value of a numeric literal with integer digits `ip` and fractional
digits `fp`, as `float()` would produce (exact for the literals at issue). -/
def numValue (ip fp : List Char) : ℚ :=
  (digitsVal ip : ℚ) + (digitsVal fp : ℚ) / ((10 : ℚ) ^ fp.length)

/-- Python float repr of an integral literal value (used only when a number
token appears in a syntactic error message; non-integral values do not occur
in the verified programs and get a plain rendering). -/
def pyFloatRepr (q : ℚ) : String :=
  if q.den = 1 then toString q.num ++ ".0" else toString q.num ++ "/" ++ toString q.den

/-- The column that lexer.py computes for an error at position `pos`:
`pos - lexdata.rfind('\n', 0, pos)`, i.e. the offset from the most recent
newline, or the raw position when no newline precedes (first line). -/
def colAt (lastNl : Option Nat) (pos : Nat) : Nat :=
  match lastNl with
  | some i => pos - i
  | none => pos

/-- The scanner loop of lexer.py: skips spaces/tabs and `#` comments, counts
newline runs into the line number, applies longest-match tokenisation with
two-character operators before one-character ones, records an illegal
character as a lexical error and skips it.  `lastNl` is the position of the
most recent newline consumed.  The fuel is an upper bound on the number of
scanner steps; `sourceLength + 1` always suffices because every step consumes
at least one character. -/
def lexLoop : Nat → List Char → Nat → Nat → Option Nat → List Token × List ErrRec × Nat
  | 0, _, _, lineno, _ => ([], [], lineno)
  | _ + 1, [], _, lineno, _ => ([], [], lineno)
  | fuel + 1, c :: rest, pos, lineno, lastNl =>
    if c = ' ' ∨ c = '\t' then lexLoop fuel rest (pos + 1) lineno lastNl
    else if c = '#' then
      let skipped := (c :: rest).takeWhile (fun d => d ≠ '\n')
      lexLoop fuel ((c :: rest).drop skipped.length) (pos + skipped.length) lineno lastNl
    else if c = '\n' then
      let nls := (c :: rest).takeWhile (fun d => d = '\n')
      lexLoop fuel ((c :: rest).drop nls.length) (pos + nls.length)
        (lineno + nls.length) (some (pos + nls.length - 1))
    else if isIdentStart c then
      let word := (c :: rest).takeWhile isIdentChar
      let s := String.mk word
      let t : Token := ⟨keywordOrId s, lineno, pos, colAt lastNl pos, s⟩
      match lexLoop fuel ((c :: rest).drop word.length) (pos + word.length) lineno lastNl with
      | (ts, es, ln) => (t :: ts, es, ln)
    else if c.isDigit then
      let ip := (c :: rest).takeWhile Char.isDigit
      let afterInt := (c :: rest).drop ip.length
      match afterInt with
      | '.' :: tl =>
        let fp := tl.takeWhile Char.isDigit
        let len := ip.length + 1 + fp.length
        let q := numValue ip fp
        let t : Token := ⟨.tNum q, lineno, pos, colAt lastNl pos, pyFloatRepr q⟩
        match lexLoop fuel ((c :: rest).drop len) (pos + len) lineno lastNl with
        | (ts, es, ln) => (t :: ts, es, ln)
      | _ =>
        let q : ℚ := (digitsVal ip : ℚ)
        let t : Token := ⟨.tNum q, lineno, pos, colAt lastNl pos, pyFloatRepr q⟩
        match lexLoop fuel ((c :: rest).drop ip.length) (pos + ip.length) lineno lastNl with
        | (ts, es, ln) => (t :: ts, es, ln)
    else if c = '.' then
      match rest with
      | d :: _ =>
        if d.isDigit then
          let fp := rest.takeWhile Char.isDigit
          let q := numValue [] fp
          let t : Token := ⟨.tNum q, lineno, pos, colAt lastNl pos, pyFloatRepr q⟩
          match lexLoop fuel (rest.drop fp.length) (pos + 1 + fp.length) lineno lastNl with
          | (ts, es, ln) => (t :: ts, es, ln)
        else
          let e : ErrRec := ⟨kLex, msgIllegalChar c, some lineno, some (colAt lastNl pos), none⟩
          match lexLoop fuel rest (pos + 1) lineno lastNl with
          | (ts, es, ln) => (ts, e :: es, ln)
      | [] =>
        let e : ErrRec := ⟨kLex, msgIllegalChar c, some lineno, some (colAt lastNl pos), none⟩
        ([], [e], lineno)
    else
      let two : Option (Tok × String) :=
        match c, rest with
        | '<', '=' :: _ => some (.tLe, "<=")
        | '>', '=' :: _ => some (.tGe, ">=")
        | '=', '=' :: _ => some (.tEq, "==")
        | '!', '=' :: _ => some (.tNe, "!=")
        | _, _ => none
      match two with
      | some (tk, txt) =>
        let t : Token := ⟨tk, lineno, pos, colAt lastNl pos, txt⟩
        match lexLoop fuel (rest.drop 1) (pos + 2) lineno lastNl with
        | (ts, es, ln) => (t :: ts, es, ln)
      | none =>
        let one : Option (Tok × String) :=
          if c = '+' then some (.tPlus, "+")
          else if c = '-' then some (.tMinus, "-")
          else if c = '*' then some (.tTimes, "*")
          else if c = '/' then some (.tDivide, "/")
          else if c = '(' then some (.tLParen, "(")
          else if c = ')' then some (.tRParen, ")")
          else if c = '=' then some (.tEqual, "=")
          else if c = '<' then some (.tLt, "<")
          else if c = '>' then some (.tGt, ">")
          else if c = '\x7b' then some (.tLBrace, "\x7b")
          else if c = '\x7d' then some (.tRBrace, "\x7d")
          else none
        match one with
        | some (tk, txt) =>
          let t : Token := ⟨tk, lineno, pos, colAt lastNl pos, txt⟩
          match lexLoop fuel rest (pos + 1) lineno lastNl with
          | (ts, es, ln) => (t :: ts, es, ln)
        | none =>
          let e : ErrRec := ⟨kLex, msgIllegalChar c, some lineno, some (colAt lastNl pos), none⟩
          match lexLoop fuel rest (pos + 1) lineno lastNl with
          | (ts, es, ln) => (ts, e :: es, ln)

/-- Tokenise a source text starting from the lexer's current line counter
(PLY does not reset `lineno` when new input is supplied).  Returns the token
list, the lexical error list, and the final line counter. -/
def tokenize (code : String) (lineno : Nat) : List Token × List ErrRec × Nat :=
  lexLoop (code.length + 1) code.data 0 lineno none

/-- Result of a parsing function: either a parsed value with the remaining
tokens and the updated shared state, or a syntactic error (the model aborts
at the first syntactic error; PLY's engine-default recovery is best-effort
and no verified program relies on it). -/
inductive PRes (α : Type)
  | ok (a : α) (rest : List Token) (g : GState)
  | perr (e : ErrRec) (g : GState)

/-- The syntactic error record that `p_error` builds from an offending
token. -/
def synNear (t : Token) : ErrRec :=
  ⟨kSyn, msgSynNear t.text, some t.line, some t.errCol, some t.text⟩

/-- Binding power and class of a binary operator token, from the `precedence`
table of gramatica.py (lowest to highest): OR < AND < NOT < ==,!= <
<,<=,>,>= < +,- < *,/ < unary minus.  NOT has level 3 and unary minus level 8
in this numbering. -/
def binPrec : Tok → Option (Nat × BinClass)
  | .tOr => some (1, .logic .orOp)
  | .tAnd => some (2, .logic .andOp)
  | .tEq => some (4, .cmp .eq)
  | .tNe => some (4, .cmp .ne)
  | .tLt => some (5, .cmp .lt)
  | .tLe => some (5, .cmp .le)
  | .tGt => some (5, .cmp .gt)
  | .tGe => some (5, .cmp .ge)
  | .tPlus => some (6, .arith .add)
  | .tMinus => some (6, .arith .sub)
  | .tTimes => some (7, .arith .mul)
  | .tDivide => some (7, .arith .div)
  | _ => none

/-- The `p_expression_id` action: an identifier absent from the symbol table
records an undeclared-variable semantic error (line, and the raw `lexpos` as
the column) and inserts a placeholder entry of type 'unknown_error'. -/
def idAction (g : GState) (t : Token) (name : String) : Ast × GState :=
  match lookupTab g.symtab name with
  | some _ => (.id name, g)
  | none =>
    let g1 := addSem g (msgUndeclared name) (some t.line) (some t.pos)
    (.id name, ⟨updateTab g1.symtab name ⟨none, none, .unknownError⟩, g1.semErrors⟩)

/-- Rebuild the AST node of a classified binary operator. -/
def mkBin (cls : BinClass) (l r : Ast) : Ast :=
  match cls with
  | .arith op => .arith op l r
  | .cmp op => .cmp op l r
  | .logic op => .logic op l r

/-- The shared action of `p_expression_binop` / `p_expression_comparison` /
`p_expression_logical`: infer both operand types, run
`check_type_compatibility` (recording its error at the operator token's line
and `lexpos`), and build either the operator node or an ('error', ...)
node. -/
def binopAction (g : GState) (opTok : Token) (cls : BinClass) (l r : Ast) : Ast × GState :=
  let t1 := getNodeType g.symtab l
  let t2 := getNodeType g.symtab r
  match checkTypeCompat cls t1 t2 with
  | (ty, msgOpt) =>
    let g1 := match msgOpt with
              | some m => addSem g m (some opTok.line) (some opTok.pos)
              | none => g
    if ty = .error then (.err, g1) else (mkBin cls l r, g1)

/-- The `p_expression_not` action. -/
def notAction (g : GState) (t : Token) (e : Ast) : Ast × GState :=
  let ty := getNodeType g.symtab e
  if ty ≠ .boolean ∧ ty ≠ .unknown then
    (.err, addSem g (msgNotType ty) (some t.line) (some t.pos))
  else (.nnot e, g)

/-- The `p_statement_assign` action: infer the right-hand side's type and
overwrite the symbol-table entry (AST, reset evaluated value, type). -/
def assignAction (g : GState) (name : String) (rhs : Ast) : Ast × GState :=
  let ty := getNodeType g.symtab rhs
  (.assign name rhs, ⟨updateTab g.symtab name ⟨some rhs, none, ty⟩, g.semErrors⟩)

/-- The boolean-condition check of `p_statement_if` / `p_statement_while`:
a condition type other than 'boolean' and 'unknown' records a semantic error
at the keyword token. -/
def condAction (g : GState) (t : Token) (cond : Ast) (mkMsg : Ty → String) : GState :=
  let ty := getNodeType g.symtab cond
  if ty ≠ .boolean ∧ ty ≠ .unknown then addSem g (mkMsg ty) (some t.line) (some t.pos) else g

/- Recursive-descent parser equivalent to the PLY grammar with its precedence
table: `parseExpr minPrec` parses an expression whose binary operators all
have binding power at least `minPrec`; the static-semantic actions fire
bottom-up, left to right, exactly in LALR reduction order.  The fuel
decreases on every call; the entry point supplies enough for any input. -/
mutual

/-- Parse an expression at a minimum binding power. -/
def parseExpr : Nat → Nat → List Token → GState → PRes Ast
  | 0, _, _, g => .perr eofErr g
  | fuel + 1, minPrec, toks, g =>
    match parsePrimary fuel toks g with
    | .perr e g1 => .perr e g1
    | .ok left rest g1 => parseBinRest fuel minPrec left rest g1

/-- Parse a primary expression: number, identifier, parenthesised
expression, NOT (binding power 3), or unary minus (binding power 8). -/
def parsePrimary : Nat → List Token → GState → PRes Ast
  | 0, _, g => .perr eofErr g
  | _ + 1, [], g => .perr eofErr g
  | fuel + 1, t :: rest, g =>
    match t.tok with
    | .tNum q => .ok (.number q) rest g
    | .tId s =>
      match idAction g t s with
      | (node, g1) => .ok node rest g1
    | .tLParen =>
      match parseExpr fuel 0 rest g with
      | .perr e g1 => .perr e g1
      | .ok e rest1 g1 =>
        match rest1 with
        | t2 :: rest2 => if t2.tok = .tRParen then .ok e rest2 g1 else .perr (synNear t2) g1
        | [] => .perr eofErr g1
    | .tNot =>
      match parseExpr fuel 3 rest g with
      | .perr e g1 => .perr e g1
      | .ok e rest1 g1 =>
        match notAction g1 t e with
        | (node, g2) => .ok node rest1 g2
    | .tMinus =>
      match parseExpr fuel 8 rest g with
      | .perr e g1 => .perr e g1
      | .ok e rest1 g1 => .ok (.uminus e) rest1 g1
    | _ => .perr (synNear t) g

/-- Fold binary operators of binding power at least `minPrec` onto `left`
(all the binary operators of the grammar are left-associative). -/
def parseBinRest : Nat → Nat → Ast → List Token → GState → PRes Ast
  | 0, _, _, _, g => .perr eofErr g
  | fuel + 1, minPrec, left, toks, g =>
    match toks with
    | [] => .ok left [] g
    | t :: rest =>
      match binPrec t.tok with
      | some (prec, cls) =>
        if minPrec ≤ prec then
          match parseExpr fuel (prec + 1) rest g with
          | .perr e g1 => .perr e g1
          | .ok right rest1 g1 =>
            match binopAction g1 t cls left right with
            | (node, g2) => parseBinRest fuel minPrec node rest1 g2
        else .ok left toks g
      | none => .ok left toks g

end

mutual

/-- Parse one statement: assignment (ID '=' expr), IF, WHILE, or a bare
expression statement. -/
def parseStatement : Nat → List Token → GState → PRes Ast
  | 0, _, g => .perr eofErr g
  | _ + 1, [], g => .perr eofErr g
  | fuel + 1, t :: rest, g =>
    match t.tok with
    | .tIf =>
      match rest with
      | tl :: rest1 =>
        if tl.tok = .tLParen then
          match parseExpr fuel 0 rest1 g with
          | .perr e g1 => .perr e g1
          | .ok cond rest2 g1 =>
            match rest2 with
            | tr :: rest3 =>
              if tr.tok = .tRParen then
                match parseBlock fuel rest3 g1 with
                | .perr e g2 => .perr e g2
                | .ok thenB rest4 g2 =>
                  match rest4 with
                  | te :: rest5 =>
                    if te.tok = .tElse then
                      match parseBlock fuel rest5 g2 with
                      | .perr e g3 => .perr e g3
                      | .ok elseB rest6 g3 =>
                        .ok (.ifElse cond thenB elseB) rest6
                          (condAction g3 t cond msgIfCondType)
                    else .ok (.ifS cond thenB) rest4 (condAction g2 t cond msgIfCondType)
                  | [] => .ok (.ifS cond thenB) [] (condAction g2 t cond msgIfCondType)
              else .perr (synNear tr) g1
            | [] => .perr eofErr g1
        else .perr (synNear tl) g
      | [] => .perr eofErr g
    | .tWhile =>
      match rest with
      | tl :: rest1 =>
        if tl.tok = .tLParen then
          match parseExpr fuel 0 rest1 g with
          | .perr e g1 => .perr e g1
          | .ok cond rest2 g1 =>
            match rest2 with
            | tr :: rest3 =>
              if tr.tok = .tRParen then
                match parseBlock fuel rest3 g1 with
                | .perr e g2 => .perr e g2
                | .ok body rest4 g2 =>
                  .ok (.whileS cond body) rest4 (condAction g2 t cond msgWhileCondType)
              else .perr (synNear tr) g1
            | [] => .perr eofErr g1
        else .perr (synNear tl) g
      | [] => .perr eofErr g
    | .tId name =>
      match rest with
      | t2 :: rest2 =>
        if t2.tok = .tEqual then
          match parseExpr fuel 0 rest2 g with
          | .perr e g1 => .perr e g1
          | .ok rhs rest3 g1 =>
            match assignAction g1 name rhs with
            | (node, g2) => .ok node rest3 g2
        else parseExpr fuel 0 (t :: rest) g
      | [] => parseExpr fuel 0 (t :: rest) g
    | _ => parseExpr fuel 0 (t :: rest) g

/-- Parse `statements` (one or more statements), stopping before a closing
brace when inside a block, or at the end of input at top level. -/
def parseStatements : Nat → Bool → List Token → GState → PRes (List Ast)
  | 0, _, _, g => .perr eofErr g
  | fuel + 1, stopAtBrace, toks, g =>
    match parseStatement fuel toks g with
    | .perr e g1 => .perr e g1
    | .ok s rest g1 =>
      let stop :=
        if stopAtBrace then
          match rest with
          | t :: _ => t.tok = .tRBrace
          | [] => false
        else rest.isEmpty
      if stop then .ok [s] rest g1
      else
        match parseStatements fuel stopAtBrace rest g1 with
        | .perr e g2 => .perr e g2
        | .ok ss rest2 g2 => .ok (s :: ss) rest2 g2

/-- Parse a block: '{' statements '}' (braces are mandatory). -/
def parseBlock : Nat → List Token → GState → PRes (List Ast)
  | 0, _, g => .perr eofErr g
  | _ + 1, [], g => .perr eofErr g
  | fuel + 1, t :: rest, g =>
    if t.tok = .tLBrace then
      match parseStatements fuel true rest g with
      | .perr e g1 => .perr e g1
      | .ok ss rest1 g1 =>
        match rest1 with
        | t2 :: rest2 => if t2.tok = .tRBrace then .ok ss rest2 g1 else .perr (synNear t2) g1
        | [] => .perr eofErr g1
    else .perr (synNear t) g

end

/-- Run the parser over a token list with fresh shared state, as
`parser.parse` does after the resets: returns the AST (None after a
syntactic error), the syntactic error list, and the shared state holding the
symbol table and the static semantic errors. -/
def parseToks (toks : List Token) : Option (List Ast) × List ErrRec × GState :=
  match parseStatements (8 * toks.length + 16) false toks ⟨[], []⟩ with
  | .ok ss _ g => (some ss, [], g)
  | .perr e g => (none, [e], g)

/-- Everything `parse_and_interpret_code` computes before deciding whether
to evaluate: tokens, lexical errors, parse result, and the lexer's advanced
line counter. -/
structure StaticOut where
  ast : Option (List Ast)
  lexErrors : List ErrRec
  synErrors : List ErrRec
  g : GState
  lineno : Nat

/-- The static (pre-evaluation) phase of `parse_and_interpret_code`. -/
def staticPhase (code : String) (ln : Nat) : StaticOut :=
  match tokenize code ln with
  | (toks, lexErrs, ln') =>
    match parseToks toks with
    | (ast, synErrs, g) => ⟨ast, lexErrs, synErrs, g, ln'⟩

/-- The combined error list `lexical ++ syntactic ++ semantic` that gates
evaluation. -/
def staticErrors (s : StaticOut) : List ErrRec :=
  s.lexErrors ++ s.synErrors ++ s.g.semErrors

/-- Collection of the evaluated-results map: every symbol-table entry whose
evaluated value `is not None`, in insertion order. -/
def collectResults (tab : SymTab) : List (String × Value) :=
  tab.filterMap (fun p =>
    match p.2.evaluatedValue with
    | some v => some (p.1, v)
    | none => none)

/-- What `parse_and_interpret_code` returns, plus the lexer's line counter
after the call (state PLY retains across calls). -/
structure InterpResult where
  ast : Option (List Ast)
  errors : List ErrRec
  results : List (String × Value)
  finalLineno : Nat

/-- The entry point `parse_and_interpret_code`: reset all error lists and
the symbol table (the lexer's `lineno` is NOT reset — PLY's `input()` leaves
it untouched and no caller resets it), tokenize and parse, and only when the
combined error list is empty run the evaluator and collect the results,
re-reading the error lists afterwards. -/
def parseAndInterpretCode (fuel : Nat) (code : String) (ln : Nat) : InterpResult :=
  let s := staticPhase code ln
  let all := staticErrors s
  if all.isEmpty then
    let p :=
      match s.ast with
      | some stmts => evalProgram fuel stmts none s.g
      | none => (none, s.g)
    ⟨s.ast, s.lexErrors ++ s.synErrors ++ p.2.semErrors, collectResults p.2.symtab, s.lineno⟩
  else ⟨s.ast, all, [], s.lineno⟩

/- Batteries marks the rational operations irreducible for `simp` hygiene;
the concrete computations below need them to reduce. -/
attribute [local semireducible] Rat.add Rat.mul Rat.sub Rat.inv Rat.ofScientific

/-- Every runtime value passes Python's `isinstance(v, (int, float))` check,
because bool is a subclass of int. -/
theorem isNumericPy_true (v : Value) : isNumericPy v = true := by
  cases v <;> rfl

/-- C1: for the source program
`contador = 0 / suma = 0 / WHILE (contador < 5) { suma = suma + contador /
contador = contador + 1 }`, `parse_and_interpret` returns an empty error
list and an evaluated-results map in which `contador` is 5.0 and `suma` is
10.0: the while evaluator re-evaluates the condition before each pass, runs
the body statements in order, and each top-level assignment overwrites the
memoized value in the symbol table. -/
theorem c1_while_loop :
    ((parseAndInterpretCode 200 "contador = 0\nsuma = 0\nWHILE (contador < 5) \x7b\n suma = suma + contador\n contador = contador + 1\n\x7d" 1).errors,
     (parseAndInterpretCode 200 "contador = 0\nsuma = 0\nWHILE (contador < 5) \x7b\n suma = suma + contador\n contador = contador + 1\n\x7d" 1).results) =
    ([], [("contador", .fl (.rat 5)), ("suma", .fl (.rat 10))]) := by
  decide

/-- C2: AND and OR evaluation short-circuits.  A left operand that is the
boolean False makes AND return False with the state exactly as the left
operand left it (the right operand is never evaluated, so no error it might
raise — e.g. a division by zero — is recorded); a left operand that is True
does the same for OR; and a non-boolean operand, left or right, records a
runtime semantic error and yields the boolean false instead of propagating
the absent value `None`. -/
theorem c2_short_circuit :
    (∀ fuel l r st st1, evalAst fuel l st = (some (.vbool false), st1) →
        evalAst (fuel + 1) (.logic .andOp l r) st = (some (.vbool false), st1)) ∧
    (∀ fuel l r st st1, evalAst fuel l st = (some (.vbool true), st1) →
        evalAst (fuel + 1) (.logic .orOp l r) st = (some (.vbool true), st1)) ∧
    (∀ fuel l r st st1 f, evalAst fuel l st = (some (.fl f), st1) →
        evalAst (fuel + 1) (.logic .andOp l r) st =
          (some (.vbool false), addSemRT st1 msgAndLeft)) ∧
    (∀ fuel l r st st1 f, evalAst fuel l st = (some (.fl f), st1) →
        evalAst (fuel + 1) (.logic .orOp l r) st =
          (some (.vbool false), addSemRT st1 msgOrLeft)) ∧
    (∀ fuel l r st st1 st2 f, evalAst fuel l st = (some (.vbool true), st1) →
        evalAst fuel r st1 = (some (.fl f), st2) →
        evalAst (fuel + 1) (.logic .andOp l r) st =
          (some (.vbool false), addSemRT st2 msgAndRight)) ∧
    (∀ fuel l r st st1 st2 f, evalAst fuel l st = (some (.vbool false), st1) →
        evalAst fuel r st1 = (some (.fl f), st2) →
        evalAst (fuel + 1) (.logic .orOp l r) st =
          (some (.vbool false), addSemRT st2 msgOrRight)) := by
  refine ⟨?_, ?_, ?_, ?_, ?_, ?_⟩
  · intro fuel l r st st1 h
    simp [evalAst, h, isBoolV]
  · intro fuel l r st st1 h
    simp [evalAst, h, isBoolV]
  · intro fuel l r st st1 f h
    simp [evalAst, h, isBoolV]
  · intro fuel l r st st1 f h
    simp [evalAst, h, isBoolV]
  · intro fuel l r st st1 st2 f h1 h2
    simp [evalAst, h1, h2, isBoolV]
  · intro fuel l r st st1 st2 f h1 h2
    simp [evalAst, h1, h2, isBoolV]

/-- Witness for C2 at concrete inputs: with `1 < 0` as the false left
operand and `1 / 0` as the never-evaluated right operand, the AND returns
False leaving the state untouched (no division-by-zero error recorded); the
symmetric OR case with `0 < 1`; and a float left operand makes AND record
the non-boolean-operand error and return false. -/
theorem c2_short_circuit_witness :
    evalAst 3 (.logic .andOp (.cmp .lt (.number 1) (.number 0))
        (.arith .div (.number 1) (.number 0))) ⟨[], []⟩ =
      (some (.vbool false), ⟨[], []⟩) ∧
    evalAst 3 (.logic .orOp (.cmp .lt (.number 0) (.number 1))
        (.arith .div (.number 1) (.number 0))) ⟨[], []⟩ =
      (some (.vbool true), ⟨[], []⟩) ∧
    evalAst 2 (.logic .andOp (.number 7) (.number 8)) ⟨[], []⟩ =
      (some (.vbool false), addSemRT ⟨[], []⟩ msgAndLeft) :=
  ⟨c2_short_circuit.1 2 _ _ ⟨[], []⟩ ⟨[], []⟩ rfl,
   c2_short_circuit.2.1 2 _ _ ⟨[], []⟩ ⟨[], []⟩ rfl,
   c2_short_circuit.2.2.1 1 _ _ ⟨[], []⟩ ⟨[], []⟩ (Fl.rat 7) rfl⟩

/-- C3: a division node whose operands both evaluate to present values and
whose right operand compares `== 0` records the semantic error "Error de
ejecución: División por cero." and returns positive infinity instead of
aborting; concretely, for the program `y = 5 / 0` no exception escapes, the
error list holds exactly that division-by-zero semantic error, and `y`'s
evaluated value in the results map is positive infinity. -/
theorem c3_division_by_zero :
    (∀ fuel l r st st1 st2 a b, evalAst fuel l st = (some a, st1) →
        evalAst fuel r st1 = (some b, st2) → pyEqZero b = true →
        evalAst (fuel + 1) (.arith .div l r) st =
          (some (.fl .inf), addSemRT st2 msgDivZero)) ∧
    (parseAndInterpretCode 100 "y = 5 / 0" 1).errors =
      [⟨kSem, msgDivZero, none, none, none⟩] ∧
    (parseAndInterpretCode 100 "y = 5 / 0" 1).results = [("y", .fl .inf)] := by
  refine ⟨?_, by decide, by decide⟩
  intro fuel l r st st1 st2 a b hl hr hz
  simp [evalAst, hl, hr, hz, isNumericPy_true]

/-- Witness for C3's universal part at the division `5 / 0` in the empty
state: the error is recorded and positive infinity returned. -/
theorem c3_division_by_zero_witness :
    evalAst 2 (.arith .div (.number 5) (.number 0)) ⟨[], []⟩ =
      (some (.fl .inf), addSemRT ⟨[], []⟩ msgDivZero) :=
  c3_division_by_zero.1 1 _ _ ⟨[], []⟩ ⟨[], []⟩ ⟨[], []⟩
    (.fl (.rat 5)) (.fl (.rat 0)) rfl rfl rfl

/-- C4: for every source text (and every retained lexer line counter and
evaluation fuel), when the concatenated lexical + syntactic + static
semantic error list is non-empty, evaluation is skipped entirely: the
returned results map is empty and the AST and the static errors are handed
back exactly as the static phase produced them. -/
theorem c4_eval_only_if_no_errors :
    ∀ fuel code ln, staticErrors (staticPhase code ln) ≠ [] →
      parseAndInterpretCode fuel code ln =
        ⟨(staticPhase code ln).ast, staticErrors (staticPhase code ln), [],
          (staticPhase code ln).lineno⟩ := by
  intro fuel code ln h
  cases hE : staticErrors (staticPhase code ln) with
  | nil => exact absurd hE h
  | cons a as => simp [parseAndInterpretCode, hE]

/-- Witness for C4 at the program `z = unknown_var + 1`, whose static error
list is non-empty: the results map is empty and the static output is
returned unchanged. -/
theorem c4_eval_only_if_no_errors_witness :
    parseAndInterpretCode 7 "z = unknown_var + 1" 1 =
      ⟨(staticPhase "z = unknown_var + 1" 1).ast,
        staticErrors (staticPhase "z = unknown_var + 1" 1), [],
        (staticPhase "z = unknown_var + 1" 1).lineno⟩ :=
  c4_eval_only_if_no_errors 7 "z = unknown_var + 1" 1 (by decide)

/-- C5 counterexample: the program `z = unknown_var + 1` records TWO
semantic errors, not exactly one — the undeclared-variable error and a
cascading type error from the enclosing `+`, because the placeholder type
'unknown_error' does not match the 'unknown' guard of
`check_type_compatibility`. -/
theorem c5_counterexample :
    (parseAndInterpretCode 100 "z = unknown_var + 1" 1).errors.length = 2 ∧
    (parseAndInterpretCode 100 "z = unknown_var + 1" 1).errors.map
        (fun e => (e.kind, e.message)) =
      [(kSem, msgUndeclared "unknown_var"),
       (kSem, msgArithType "+" .unknownError .float)] := by
  constructor
  · decide
  · decide

/-- C5 amended: for `z = unknown_var + 1`, `parse_and_interpret` records two
semantic errors — first the undeclared-variable error referencing
`unknown_var` (line 1, position 4), then the cascading type error for the
enclosing `+` (the placeholder entry has type 'unknown_error', which does
not trigger the 'unknown' cascading-suppression in
`check_type_compatibility`); an AST is still produced, with the erroneous
expression replaced by an ('error', ...) node, and evaluation is skipped
because the error list is non-empty, so the results map is empty. -/
theorem c5_undeclared_variable_amended :
    (parseAndInterpretCode 100 "z = unknown_var + 1" 1).errors =
      [⟨kSem, msgUndeclared "unknown_var", some 1, some 4, none⟩,
       ⟨kSem, msgArithType "+" .unknownError .float, some 1, some 16, none⟩] ∧
    (parseAndInterpretCode 100 "z = unknown_var + 1" 1).ast =
      some [.assign "z" .err] ∧
    (parseAndInterpretCode 100 "z = unknown_var + 1" 1).results = [] := by
  refine ⟨by decide, by rfl, by decide⟩

/-- C6: the parser resolves operator ambiguity with the precedence table of
gramatica.py (OR < AND < NOT < ==,!= < <,<=,>,>= < +,- < *,/ < unary
minus, with the stated associativities, encoded in `binPrec` and the parser
entry levels); consequently `x = 2 + 3 * 4` parses with the multiplication
bound tighter than the addition and `x` evaluates to 14.0, not 20.0. -/
theorem c6_precedence :
    (parseAndInterpretCode 100 "x = 2 + 3 * 4" 1).ast =
      some [.assign "x" (.arith .add (.number 2)
        (.arith .mul (.number 3) (.number 4)))] ∧
    (parseAndInterpretCode 100 "x = 2 + 3 * 4" 1).errors = [] ∧
    (parseAndInterpretCode 100 "x = 2 + 3 * 4" 1).results =
      [("x", .fl (.rat 14))] := by
  refine ⟨by rfl, by decide, by decide⟩

/-- C7: an assignment first evaluates its right-hand side; if that yields
`None` the assignment returns `None` and leaves the state exactly as the
right-hand side's evaluation left it (no symbol-table update); otherwise it
overwrites the variable's stored evaluated value with the new value and
returns that value. -/
theorem c7_assign_none_no_update :
    (∀ fuel name e st st1, evalAst fuel e st = (none, st1) →
        evalAst (fuel + 1) (.assign name e) st = (none, st1)) ∧
    (∀ fuel name e st st1 v, evalAst fuel e st = (some v, st1) →
        evalAst (fuel + 1) (.assign name e) st =
          (some v, ⟨setEvalField st1.symtab name (some v), st1.semErrors⟩)) := by
  constructor
  · intro fuel name e st st1 h
    simp [evalAst, h]
  · intro fuel name e st st1 v h
    simp [evalAst, h]

/-- Witness for C7: assigning from an ('error', ...) node (which evaluates
to `None`) returns `None` and leaves the state unchanged; assigning a
number stores and returns it. -/
theorem c7_assign_none_no_update_witness :
    evalAst 2 (.assign "a" .err) ⟨[], []⟩ = (none, ⟨[], []⟩) ∧
    evalAst 2 (.assign "a" (.number 2)) ⟨[], []⟩ =
      (some (.fl (.rat 2)), ⟨[], []⟩) :=
  ⟨c7_assign_none_no_update.1 1 "a" .err ⟨[], []⟩ ⟨[], []⟩ rfl,
   c7_assign_none_no_update.2 1 "a" (.number 2) ⟨[], []⟩ ⟨[], []⟩ (.fl (.rat 2)) rfl⟩

/-- C8 (code bug): the lexer's internal line counter is NOT reset between
calls (PLY's `input()` leaves `lineno` untouched and `parse_and_interpret`
resets every other piece of state but not this one), so running the same
source twice in a row does not give identical error lists: for
`x = 1 \n bad = $`, the first call reports the illegal character at line 2
and leaves the counter at 2, and the second call reports it at line 3. -/
theorem c8_lineno_not_reset :
    (parseAndInterpretCode 100 "x = 1\nbad = $" 1).finalLineno = 2 ∧
    (parseAndInterpretCode 100 "x = 1\nbad = $" 1).errors.map (fun e => e.line) =
      [some 2, none] ∧
    (parseAndInterpretCode 100 "x = 1\nbad = $" 2).errors.map (fun e => e.line) =
      [some 3, none] ∧
    (parseAndInterpretCode 100 "x = 1\nbad = $" 1).errors ≠
      (parseAndInterpretCode 100 "x = 1\nbad = $" 2).errors := by
  refine ⟨by decide, by decide, by decide, by decide⟩

/-- C9: inside the body of an if / if-else / while block, a non-assignment
statement (that is not a skipped ('error', ...) node) evaluating to `None`
aborts the block right there — the remaining statements are not executed and
the block reports the abort, which the enclosing construct turns into
`None` (shown here for the while loop); an assignment evaluating to `None`
does not abort — execution continues with the next statement and `None` as
the running last result; at the top-level program list, by contrast,
execution always continues with the next statement whatever the result. -/
theorem c9_block_abort_on_none :
    (∀ fuel s rest last st st1, isErrAst s = false → isAssignAst s = false →
        evalAst fuel s st = (none, st1) →
        blockExec (fuel + 1) (s :: rest) last st = (.aborted, st1)) ∧
    (∀ fuel name e rest last st st1,
        evalAst fuel (.assign name e) st = (none, st1) →
        blockExec (fuel + 1) (.assign name e :: rest) last st =
          blockExec fuel rest none st1) ∧
    (∀ fuel c body last st st1 st2,
        evalAst fuel c st = (some (.vbool true), st1) →
        blockExec fuel body last st1 = (.aborted, st2) →
        whileEval (fuel + 1) c body last st = (none, st2)) ∧
    (∀ fuel s rest last st st1 r, isErrAst s = false →
        evalAst fuel s st = (r, st1) →
        evalProgram fuel (s :: rest) last st = evalProgram fuel rest r st1) := by
  refine ⟨?_, ?_, ?_, ?_⟩
  · intro fuel s rest last st st1 hErr hAsg h
    simp [blockExec, hErr, hAsg, h]
  · intro fuel name e rest last st st1 h
    simp [blockExec, h, isErrAst, isAssignAst]
  · intro fuel c body last st st1 st2 h1 h2
    simp [whileEval, h1, h2, isBoolV, boolOf]
  · intro fuel s rest last st st1 r hErr h
    simp [evalProgram, hErr, h]

/-- Witness for C9: an undefined identifier read (a non-assignment)
evaluates to `None` and aborts the block before the following statement; an
assignment whose right side is an ('error', ...) node continues; a while
body abort makes the whole loop return `None`; and the top level continues
past the failing statement. -/
theorem c9_block_abort_on_none_witness :
    blockExec 2 [.id "x", .number 3] none ⟨[], []⟩ =
      (.aborted, ⟨[], [⟨kSem, msgUndefinedRT "x", none, none, none⟩]⟩) ∧
    blockExec 2 [.assign "a" .err, .number 3] none ⟨[], []⟩ =
      blockExec 1 [.number 3] none ⟨[], []⟩ ∧
    whileEval 3 (.cmp .lt (.number 0) (.number 1)) [.id "x"] none ⟨[], []⟩ =
      (none, ⟨[], [⟨kSem, msgUndefinedRT "x", none, none, none⟩]⟩) ∧
    evalProgram 1 [.id "x", .number 3] none ⟨[], []⟩ =
      evalProgram 1 [.number 3] none ⟨[], [⟨kSem, msgUndefinedRT "x", none, none, none⟩]⟩ :=
  ⟨c9_block_abort_on_none.1 1 (.id "x") [.number 3] none ⟨[], []⟩ _ rfl rfl rfl,
   c9_block_abort_on_none.2.1 1 "a" .err [.number 3] none ⟨[], []⟩ ⟨[], []⟩ rfl,
   c9_block_abort_on_none.2.2.1 2 (.cmp .lt (.number 0) (.number 1)) [.id "x"]
     none ⟨[], []⟩ ⟨[], []⟩ _ rfl rfl,
   c9_block_abort_on_none.2.2.2 1 (.id "x") [.number 3] none ⟨[], []⟩ _ none rfl rfl⟩

/-- C10: `None` is the only sentinel for an absent value.  A memoized
identifier read whose cached value is present — even 0.0 or the boolean
False — returns the cached value unchanged without re-evaluating (the state
is untouched), because the presence check compares against `None` identity,
not truthiness; and a variable whose final evaluated value is 0.0 or False
is still included in the evaluated-results map, as the program
`a = 0 / b = 0 == 1` shows. -/
theorem c10_none_is_only_sentinel :
    (∀ fuel name st e v, lookupTab st.symtab name = some e →
        e.evaluatedValue = some v →
        evalAst (fuel + 1) (.id name) st = (some v, st)) ∧
    (parseAndInterpretCode 100 "a = 0\nb = 0 == 1" 1).errors = [] ∧
    (parseAndInterpretCode 100 "a = 0\nb = 0 == 1" 1).results =
      [("a", .fl (.rat 0)), ("b", .vbool false)] := by
  refine ⟨?_, by decide, by decide⟩
  intro fuel name st e v h1 h2
  simp [evalAst, h1, h2]

/-- Witness for C10's universal part: a cached boolean False is returned
as-is with the state unchanged. -/
theorem c10_none_is_only_sentinel_witness :
    evalAst 1 (.id "a") ⟨[("a", ⟨none, some (.vbool false), .boolean⟩)], []⟩ =
      (some (.vbool false), ⟨[("a", ⟨none, some (.vbool false), .boolean⟩)], []⟩) :=
  c10_none_is_only_sentinel.1 0 "a" ⟨[("a", ⟨none, some (.vbool false), .boolean⟩)], []⟩
    ⟨none, some (.vbool false), .boolean⟩ (.vbool false) rfl rfl

end Compilador
